import Mathlib

/-!
Verification of the txZMQ connection engine and pattern adapters.

Shallow embedding of `txzmq/connection.py`, `txzmq/base.py`, `txzmq/pubsub.py`
and `txzmq/req_rep.py`.  Byte strings (frames) are modelled as lists of
naturals; the outbound queue is a list of `(flag, frame)` pairs; the reactor's
set of outstanding delayed calls for one connection is a list of handle ids;
Python exceptions are modelled with `Except`.
-/

namespace Txzmq

/-- A frame: one opaque byte string, modelled as a list of byte values. -/
abbrev Frame := List Nat

/-- The ZeroMQ SNDMORE flag (`zmq.core.constants.SNDMORE = 2`). -/
def SNDMORE : Nat := 2

/-- Python exceptions raised by the modelled code paths. -/
inductive PyErr where
  | valueError
  | keyError
  | attributeError
  | indexError
  | assertionError
deriving Repr, DecidableEq

/-- State of one `ZmqConnection` instance (`connection.py`, `__init__` lines
88-110): the outbound `queue` of `(flag, frame)` pairs, the
`scheduled_doRead` marker (`some h` when a delayed call with handle `h` is
held), the reactor's list `live` of outstanding (neither fired nor cancelled)
delayed-call handles belonging to this connection, a fresh-handle counter for
`reactor.callLater`, and `factoryAlive` standing for `self.factory is not
None`. -/
structure ConnState where
  queue : List (Nat × Frame)
  scheduled : Option Nat
  live : List Nat
  nextHandle : Nat
  factoryAlive : Bool
deriving Repr, DecidableEq

/-- A freshly constructed connection: empty queue, no scheduled flush
(`self.scheduled_doRead = None`), factory reference present. -/
def ZmqConnection.init : ConnState :=
  { queue := [], scheduled := none, live := [], nextHandle := 0, factoryAlive := true }

/-- Models `ZmqConnection.sendMultipart` (`connection.py` lines 260-273).
`islice(parts, len(parts) - 1)` raises `ValueError` on an empty list (negative
stop) before the queue is touched; otherwise every frame but the last is
appended paired with SNDMORE, the last paired with 0, and a flush is scheduled
via `reactor.callLater(0, self.doRead)` exactly when `scheduled_doRead` is
`None` (the fresh handle is recorded both in the marker and in the reactor's
outstanding set). -/
def ZmqConnection.sendMultipart (parts : List Frame) (s : ConnState) :
    Except PyErr ConnState :=
  match parts.getLast? with
  | none => .error .valueError
  | some lastFrame =>
    let q := s.queue ++ parts.dropLast.map (fun m => (SNDMORE, m)) ++ [(0, lastFrame)]
    match s.scheduled with
    | none =>
      .ok { s with queue := q, scheduled := some s.nextHandle,
                   live := s.live ++ [s.nextHandle], nextHandle := s.nextHandle + 1 }
    | some _ => .ok { s with queue := q }

/-- Models the prologue of `ZmqConnection.doRead` (`connection.py` lines
194-197): if a scheduled flush is held it is cancelled unless it already fired
(`erase` is a no-op when the handle has already left the reactor's outstanding
set), and the marker is cleared before any draining or receiving happens. -/
def doReadPrologue (s : ConnState) : ConnState :=
  match s.scheduled with
  | none => s
  | some h => { s with scheduled := none, live := s.live.erase h }

/-- Models `ZmqConnection.shutdown` (`connection.py` lines 123-138): the
factory reference is cleared and any pending scheduled flush is cancelled. -/
def ZmqConnection.shutdown (s : ConnState) : ConnState :=
  match s.scheduled with
  | none => { s with factoryAlive := false }
  | some h => { s with factoryAlive := false, scheduled := none, live := s.live.erase h }

/-- Outcome of one non-blocking `self.socket.send` attempt: success, the
would-block errno EAGAIN, or any other `ZMQError` errno. -/
inductive SendOutcome where
  | ok
  | eagain
  | err (e : Nat)
deriving Repr, DecidableEq

/-- Result of the POLLOUT drain loop: the entries sent (in order), the queue
left behind, and the errno re-raised, if any. -/
structure DrainResult where
  sent : List (Nat × Frame)
  queue : List (Nat × Frame)
  raised : Option Nat
deriving Repr, DecidableEq

/-- Models the POLLOUT branch of `ZmqConnection.doRead` (`connection.py`
lines 200-211): while the queue is non-empty, send the head non-blockingly
(the oracle `outs` supplies one outcome per attempt); on success `popleft` and
continue, on EAGAIN break leaving the queue intact, on any other error
`popleft` and re-raise. -/
def drainOutput (outs : List SendOutcome) (queue : List (Nat × Frame)) : DrainResult :=
  match queue, outs with
  | [], _ => ⟨[], [], none⟩
  | q, [] => ⟨[], q, none⟩
  | x :: rest, o :: outs2 =>
    match o with
    | .ok =>
      let r := drainOutput outs2 rest
      ⟨x :: r.sent, r.queue, r.raised⟩
    | .eagain => ⟨[], x :: rest, none⟩
    | .err e => ⟨[], rest, some e⟩

/-- Outcome of one `self._readMultipart()` call: a complete multipart message,
the would-block errno EAGAIN, or any other `ZMQError` errno. -/
inductive RecvOutcome where
  | msg (m : List Frame)
  | eagain
  | err (e : Nat)
deriving Repr, DecidableEq

/-- Models the POLLIN branch of `ZmqConnection.doRead` (`connection.py` lines
212-224): each iteration first checks `self.factory is None` and returns at
once if so, touching the socket no further; otherwise it performs one
non-blocking receive (counted in the second component), breaking on EAGAIN,
re-raising any other errno (third component), and dispatching a complete
message to `messageReceived` — whose reentrant effects on the connection are
an arbitrary `handler`. -/
def inputLoop (handler : List Frame → ConnState → ConnState) :
    List RecvOutcome → ConnState → ConnState × Nat × Option Nat
  | ins, s =>
    if s.factoryAlive = false then (s, 0, none)
    else
      match ins with
      | [] => (s, 0, none)
      | RecvOutcome.eagain :: _ => (s, 1, none)
      | RecvOutcome.err e :: _ => (s, 1, some e)
      | RecvOutcome.msg m :: rest =>
        let r := inputLoop handler rest (handler m s)
        (r.1, r.2.1 + 1, r.2.2)

/-- One atomic step of a connection, as interleaved by the reactor: a
`sendMultipart` call (possibly reentrant, from inside a `messageReceived`
handler), the reactor firing the delayed flush (the handle leaves the
outstanding set just before `doRead` runs), the `doRead` prologue clearing the
marker, one `popleft` of the drain loop, or `shutdown`. -/
inductive EngStep : ConnState → ConnState → Prop where
  | send (parts : List Frame) (s s2 : ConnState) :
      ZmqConnection.sendMultipart parts s = .ok s2 → EngStep s s2
  | timerFire (h : Nat) (s : ConnState) :
      h ∈ s.live → EngStep s { s with live := s.live.erase h }
  | clearScheduled (s : ConnState) : EngStep s (doReadPrologue s)
  | drainPop (s : ConnState) : EngStep s { s with queue := s.queue.tail }
  | shutdown (s : ConnState) : EngStep s (ZmqConnection.shutdown s)

/-- The scheduled-flush invariant: the reactor holds at most one outstanding
delayed call for this connection, and any it holds is the one recorded in
`scheduled_doRead`. -/
def flushInv (s : ConnState) : Prop :=
  s.live = [] ∨ ∃ h, s.live = [h] ∧ s.scheduled = some h

/-! ## Pub/sub framing (`pubsub.py`) -/

/-- The single frame built by `ZmqPubConnection.sendMsg` (`pubsub.py` line
24): `tag + '\0' + message`. -/
def ZmqPubConnection.sendMsgFrame (message tag : Frame) : Frame :=
  tag ++ [0] ++ message

/-- Models Python's `s.split('\0', 1)` followed by unpacking into two names
(`pubsub.py` line 80): split the byte string at the first 0 byte; when no
separator is present the unpacking raises, modelled as `none`. -/
def splitOnceAtSep : Frame → Option (Frame × Frame)
  | [] => none
  | b :: rest =>
    if b = 0 then some ([], rest)
    else match splitOnceAtSep rest with
      | none => none
      | some (pre, post) => some (b :: pre, post)

/-- Models `ZmqSubConnection.messageReceived` (`pubsub.py` lines 64-81),
returning the `(tag, message)` pair handed to `gotMessage`: a two-frame
receive takes the first frame as the tag, a one-frame receive splits the
frame on the first separator byte, any other length fails the `assert`. -/
def ZmqSubConnection.messageReceived (message : List Frame) : Option (Frame × Frame) :=
  match message with
  | [tag, m] => some (tag, m)
  | [f] => splitOnceAtSep f
  | _ => none

/-! ## Python attribute lookup for the `send` call sites
(`pubsub.py` line 24, `base.py` line 40) -/

/-- Attribute names set on every instance by `ZmqConnection.__init__`
(`connection.py` lines 88-96). -/
def instanceAttrs : List String :=
  ["factory", "endpoints", "identity", "socket", "queue", "recv_parts",
   "scheduled_doRead", "fd"]

/-- Methods and class attributes defined by `ZmqConnection`
(`connection.py`). -/
def ZmqConnection.classAttrs : List String :=
  ["socketType", "allowLoopbackMulticast", "multicastRate", "highWaterMark",
   "__init__", "addEndpoints", "shutdown", "__repr__", "fileno",
   "connectionLost", "_readMultipart", "doRead", "logPrefix", "_connectOrBind",
   "sendMsg", "sendMultipart", "messageReceived", "gotMessage", "gotMultipart"]

/-- Methods defined by `ZmqBase` (`base.py`). -/
def ZmqBase.classAttrs : List String :=
  ["sendMsg", "sendMultipart", "messageReceived", "gotMessage", "gotMultipart"]

/-- Methods and class attributes defined by `ZmqPubConnection`
(`pubsub.py`). -/
def ZmqPubConnection.classAttrs : List String :=
  ["socketType", "sendMsg", "sendMultipart", "publish", "publishMultipart",
   "__repr__"]

/-- Python attribute resolution on an instance: the instance dictionary, then
each class of the method resolution order in turn. -/
def resolveAttr (mro : List (List String)) (nm : String) : Bool :=
  instanceAttrs.contains nm || mro.any (fun ms => ms.contains nm)

/-- The method resolution order of a `ZmqPubConnection` instance
(`ZmqPubConnection` → `ZmqBase` → `ZmqConnection` → `object`, which defines
no `send`). -/
def zmqPubMRO : List (List String) :=
  [ZmqPubConnection.classAttrs, ZmqBase.classAttrs, ZmqConnection.classAttrs, []]

/-- The method resolution order of a plain `ZmqBase` instance. -/
def zmqBaseMRO : List (List String) :=
  [ZmqBase.classAttrs, ZmqConnection.classAttrs, []]

/-- Models `ZmqPubConnection.sendMsg` (`pubsub.py` lines 15-24): the frame
`tag + '\0' + message` is built, then `self.send([...])` is evaluated, which
first resolves the attribute `send` on the instance; when the lookup fails an
`AttributeError` propagates with the connection state untouched (the error
carries the state at the point of raising). -/
def ZmqPubConnection.sendMsg (message tag : Frame) (s : ConnState) :
    Except (PyErr × ConnState) ConnState :=
  if resolveAttr zmqPubMRO "send" then
    -- dead branch: no class in the hierarchy defines `send`
    .ok s
  else .error (.attributeError, s)

/-- Models `ZmqBase.sendMultipart` (`base.py` lines 33-40): evaluates
`self.send(parts)`, whose attribute lookup fails for the same reason. -/
def ZmqBase.sendMultipart (parts : List Frame) (s : ConnState) :
    Except (PyErr × ConnState) ConnState :=
  if resolveAttr zmqBaseMRO "send" then
    -- dead branch: no class in the hierarchy defines `send`
    .ok s
  else .error (.attributeError, s)

/-! ## Request/reply adapters (`req_rep.py`)

Frames at this layer are Python strings (`''` is the empty delimiter frame),
and the `dict` attributes are association lists whose operations mirror
Python's: lookup and `pop` act on the (unique) matching key, assignment
replaces in place or appends. -/

/-- Python `d[k]` / `d.get(k)`: value of the matching key, if present. -/
def dictGet {β : Type} (k : String) : List (String × β) → Option β
  | [] => none
  | (k2, v) :: rest => if k2 = k then some v else dictGet k rest

/-- Python `d.pop(k)`: the value of the matching key together with the
dictionary with that entry removed; `none` models the `KeyError`. -/
def dictPop {β : Type} (k : String) : List (String × β) → Option (β × List (String × β))
  | [] => none
  | (k2, v) :: rest =>
    if k2 = k then some (v, rest)
    else match dictPop k rest with
      | none => none
      | some (v2, rest2) => some (v2, (k2, v) :: rest2)

/-- Python `d[k] = v`: replace the matching entry in place, else append. -/
def dictInsert {β : Type} (k : String) (v : β) : List (String × β) → List (String × β)
  | [] => [(k, v)]
  | (k2, v2) :: rest => if k2 = k then (k, v) :: rest else (k2, v2) :: dictInsert k v rest

/-- The batch size `ZmqRequestConnection.UUID_POOL_GEN_SIZE` (`req_rep.py`
line 36). -/
def UUID_POOL_GEN_SIZE : Nat := 5

/-- Models `str(uuid.uuid4())`: the `n`-th fresh identifier drawn from a
supply counter (distinct counters give distinct strings, standing for the
uniqueness of freshly generated UUIDs). -/
def genUuid (n : Nat) : String := toString n

/-- State of one `ZmqRequestConnection` (`req_rep.py` lines 38-41):
`_requests` maps an in-flight correlation id to its pending `Deferred`
(identified by a number), `_uuids` is the reusable id pool, `supply` feeds
`genUuid`, and `nextDeferred` numbers the Deferreds created by
`sendMultipart`. -/
structure ReqState where
  requests : List (String × Nat)
  uuids : List String
  supply : Nat
  nextDeferred : Nat
deriving Repr, DecidableEq

/-- A freshly constructed request connection: empty pending map, empty id
pool. -/
def ZmqRequestConnection.init : ReqState :=
  { requests := [], uuids := [], supply := 0, nextDeferred := 0 }

/-- Models `ZmqRequestConnection._getNextId` (`req_rep.py` lines 43-57): when
the pool is empty, append `UUID_POOL_GEN_SIZE` freshly generated ids; then
`self._uuids.pop()` removes and returns the LAST element. -/
def ZmqRequestConnection._getNextId (s : ReqState) : String × ReqState :=
  let (pool, supply) :=
    if s.uuids = [] then
      (s.uuids ++ (List.range UUID_POOL_GEN_SIZE).map (fun i => genUuid (s.supply + i)),
       s.supply + UUID_POOL_GEN_SIZE)
    else (s.uuids, s.supply)
  (pool.getLast!, { s with uuids := pool.dropLast, supply := supply })

/-- Models `ZmqRequestConnection._releaseId` (`req_rep.py` lines 59-68):
append the released id; when the pool then holds more than
`2 * UUID_POOL_GEN_SIZE` ids, `self._uuids[-UUID_POOL_GEN_SIZE:] = []`
deletes the last `UUID_POOL_GEN_SIZE` of them. -/
def ZmqRequestConnection._releaseId (msgId : String) (uuids : List String) : List String :=
  let u := uuids ++ [msgId]
  if u.length > 2 * UUID_POOL_GEN_SIZE then u.take (u.length - UUID_POOL_GEN_SIZE) else u

/-- Models `ZmqRequestConnection.sendMultipart` (`req_rep.py` lines 70-81): a
new Deferred is created, a correlation id allocated, the Deferred recorded
under that id, and `[messageId, ''] + messageParts` handed to
`ZmqConnection.sendMultipart`; returns the new adapter state, the Deferred,
and the frames passed down to the engine. -/
def ZmqRequestConnection.sendMultipart (messageParts : List String) (s : ReqState) :
    ReqState × Nat × List String :=
  let d := s.nextDeferred
  let (messageId, s2) := ZmqRequestConnection._getNextId s
  ({ s2 with requests := dictInsert messageId d s2.requests, nextDeferred := d + 1 },
   d, messageId :: "" :: messageParts)

/-- Models `ZmqRequestConnection.messageReceived` (`req_rep.py` lines 83-94):
`msgId, _, msg = message[0], message[1], message[2:]` (an `IndexError` when
fewer than two frames arrived), then `d = self._requests.pop(msgId)` (a
`KeyError` when no request is pending under that id), the id is released to
the pool and `d.callback(msg)` fires; returns the new state, the resolved
Deferred and the payload it was resolved with. -/
def ZmqRequestConnection.messageReceived (message : List String) (s : ReqState) :
    Except PyErr (ReqState × Nat × List String) :=
  match message with
  | msgId :: _ :: msg =>
    match dictPop msgId s.requests with
    | none => .error .keyError
    | some (d, rest) =>
      .ok ({ s with requests := rest,
                    uuids := ZmqRequestConnection._releaseId msgId s.uuids }, d, msg)
  | _ => .error .indexError

/-- State of one `ZmqReplyConnection` (`req_rep.py` lines 110-112): the
`_routingInfo` map from correlation id to the saved routing envelope. -/
structure RepState where
  routingInfo : List (String × List String)
deriving Repr, DecidableEq

/-- Models `ZmqReplyConnection.sendMultipart` (`req_rep.py` lines 117-127):
`routingInfo = self._routingInfo.pop(messageId)` (a `KeyError` — with nothing
enqueued — when no envelope is saved under that id), then
`routingInfo + [messageId, ''] + messageParts` is handed to
`ZmqConnection.sendMultipart`; returns the new state and the frames passed
down to the engine. -/
def ZmqReplyConnection.sendMultipart (messageId : String) (messageParts : List String)
    (s : RepState) : Except PyErr (RepState × List String) :=
  match dictPop messageId s.routingInfo with
  | none => .error .keyError
  | some (info, rest) =>
    .ok ({ routingInfo := rest }, info ++ messageId :: "" :: messageParts)

/-- Models `ZmqReplyConnection.messageReceived` (`req_rep.py` lines 129-144):
`i = message.index('')` (a `ValueError` when no empty delimiter frame is
present), `assert i > 0`, split into routing envelope, correlation id and
payload, save the envelope under the id and dispatch `(msgId, payload)`. -/
def ZmqReplyConnection.messageReceived (message : List String) (s : RepState) :
    Except PyErr (RepState × String × List String) :=
  match message.findIdx? (fun f => f = "") with
  | none => .error .valueError
  | some i =>
    if i = 0 then .error .assertionError
    else
      .ok ({ routingInfo := dictInsert (message.getD (i - 1) "")
                              (message.take (i - 1)) s.routingInfo },
           message.getD (i - 1) "", message.drop (i + 1))

/-! ## Sequences of pool operations and the ten-request scenario -/

/-- One call on the id pool: an allocation via `_getNextId` or a release via
`_releaseId`. -/
inductive PoolOp where
  | get
  | release (id : String)

/-- Apply one pool operation to the adapter state. -/
def applyPoolOp (s : ReqState) (op : PoolOp) : ReqState :=
  match op with
  | .get => (ZmqRequestConnection._getNextId s).2
  | .release id => { s with uuids := ZmqRequestConnection._releaseId id s.uuids }

/-- Run a sequence of pool operations from a given state. -/
def runPoolOps (s : ReqState) (ops : List PoolOp) : ReqState :=
  ops.foldl applyPoolOp s

/-- The ten sends of the scenario: each sends `["aaa"]` through
`ZmqRequestConnection.sendMultipart`, collecting the correlation ids placed
on the wire. -/
def tenSends : ReqState × List String :=
  (List.range 10).foldl
    (fun acc _ =>
      let r := ZmqRequestConnection.sendMultipart ["aaa"] acc.1
      (r.1, acc.2 ++ [r.2.2.headI]))
    (ZmqRequestConnection.init, [])

/-- Receipt of the ten matching echo replies `[id, '', 'aaa']`, one per
outstanding correlation id, through
`ZmqRequestConnection.messageReceived`. -/
def tenReplies : Except PyErr ReqState :=
  tenSends.2.foldlM
    (fun s id =>
      (ZmqRequestConnection.messageReceived [id, "", "aaa"] s).map (fun r => r.1))
    tenSends.1

/-! ## Helper lemmas -/

/-- Splitting the encoded frame recovers the tag and the payload when the tag
holds no separator byte. -/
theorem splitOnceAtSep_encode (tag payload : Frame) (h : ¬ 0 ∈ tag) :
    splitOnceAtSep (tag ++ [0] ++ payload) = some (tag, payload) := by
  induction tag with
  | nil => simp [splitOnceAtSep]
  | cons b bs ih =>
    have hb : ¬ b = 0 := fun hb => h (by simp [hb])
    have hbs := ih (fun hm => h (List.mem_cons_of_mem b hm))
    simp only [List.append_assoc, List.singleton_append] at hbs ⊢
    simp [splitOnceAtSep, hb, hbs]

/-- A key present in the dictionary can be popped, yielding its value. -/
theorem dictGet_some_dictPop {β : Type} (k : String) (d : List (String × β)) (v : β)
    (h : dictGet k d = some v) : ∃ rest, dictPop k d = some (v, rest) := by
  induction d with
  | nil => simp [dictGet] at h
  | cons e tl ih =>
    obtain ⟨k2, v2⟩ := e
    by_cases hk : k2 = k
    · simp only [dictGet, if_pos hk, Option.some.injEq] at h
      exact ⟨tl, by simp [dictPop, hk, h]⟩
    · simp only [dictGet, if_neg hk] at h
      obtain ⟨r, hr⟩ := ih h
      exact ⟨(k2, v2) :: r, by simp [dictPop, hk, hr]⟩

/-- Popping a key absent from the dictionary fails. -/
theorem dictGet_none_dictPop {β : Type} (k : String) (d : List (String × β))
    (h : dictGet k d = none) : dictPop k d = none := by
  induction d with
  | nil => simp [dictPop]
  | cons e tl ih =>
    obtain ⟨k2, v2⟩ := e
    by_cases hk : k2 = k
    · simp [dictGet, hk] at h
    · simp only [dictGet, if_neg hk] at h
      simp [dictPop, hk, ih h]

/-- Lookup of a key that is not among the dictionary's keys fails. -/
theorem dictGet_eq_none {β : Type} (k : String) (d : List (String × β))
    (h : ¬ k ∈ d.map Prod.fst) : dictGet k d = none := by
  induction d with
  | nil => rfl
  | cons e tl ih =>
    obtain ⟨k2, v2⟩ := e
    have hk : ¬ k2 = k := fun hk => h (by simp [hk])
    have htl : ¬ k ∈ tl.map Prod.fst := fun hm => h (by simp [hm])
    simp [dictGet, hk, ih htl]

/-- When the keys are distinct (as a Python dict's are), a popped key is gone
from the remainder. -/
theorem dictPop_nodup_get_none {β : Type} (k : String) (d : List (String × β))
    (v : β) (rest : List (String × β)) (hnd : (d.map Prod.fst).Nodup)
    (h : dictPop k d = some (v, rest)) : dictGet k rest = none := by
  induction d generalizing rest with
  | nil => simp [dictPop] at h
  | cons e tl ih =>
    obtain ⟨k2, v2⟩ := e
    simp only [List.map_cons, List.nodup_cons] at hnd
    by_cases hk : k2 = k
    · simp only [dictPop, if_pos hk, Option.some.injEq, Prod.mk.injEq] at h
      exact h.2 ▸ dictGet_eq_none k tl (hk ▸ hnd.1)
    · simp only [dictPop, if_neg hk] at h
      cases htl : dictPop k tl with
      | none => rw [htl] at h; exact absurd h (by simp)
      | some p =>
        obtain ⟨v3, rest3⟩ := p
        rw [htl] at h
        simp only [Option.some.injEq, Prod.mk.injEq] at h
        obtain ⟨hv, hrest⟩ := h
        subst hrest
        simp [dictGet, hk, ih rest3 hnd.2 (hv ▸ htl)]

/-- The drain loop only ever removes elements from the front of the queue:
what was sent, plus the element dropped by a fatal error if any, plus what
remains, is the original queue in order. -/
theorem drainOutput_partition (outs : List SendOutcome) (q : List (Nat × Frame)) :
    ((drainOutput outs q).raised = none →
      (drainOutput outs q).sent ++ (drainOutput outs q).queue = q) ∧
    (∀ e, (drainOutput outs q).raised = some e →
      ∃ x, (drainOutput outs q).sent ++ x :: (drainOutput outs q).queue = q) := by
  induction q generalizing outs with
  | nil => simp [drainOutput]
  | cons x rest ih =>
    cases outs with
    | nil => simp [drainOutput]
    | cons o outs2 =>
      cases o with
      | ok =>
        obtain ⟨h1, h2⟩ := ih outs2
        constructor
        · intro hr
          simp only [drainOutput] at hr ⊢
          simp [h1 hr]
        · intro e hr
          simp only [drainOutput] at hr ⊢
          obtain ⟨y, hy⟩ := h2 e hr
          exact ⟨y, by simp [hy]⟩
      | eagain => simp [drainOutput]
      | err e => simp [drainOutput]

/-- A release keeps a pool of at most `2 * UUID_POOL_GEN_SIZE` ids at that
bound. -/
theorem releaseId_length_le (id : String) (u : List String)
    (h : u.length ≤ 2 * UUID_POOL_GEN_SIZE) :
    (ZmqRequestConnection._releaseId id u).length ≤ 2 * UUID_POOL_GEN_SIZE := by
  unfold ZmqRequestConnection._releaseId
  simp only [List.length_append, List.length_cons, List.length_nil]
  split <;> simp_all [UUID_POOL_GEN_SIZE] <;> omega

/-- Any sequence of pool operations from a fresh adapter leaves at most
`2 * UUID_POOL_GEN_SIZE` ids in the pool. -/
theorem runPoolOps_length_le (ops : List PoolOp) (s : ReqState)
    (h : s.uuids.length ≤ 2 * UUID_POOL_GEN_SIZE) :
    (runPoolOps s ops).uuids.length ≤ 2 * UUID_POOL_GEN_SIZE := by
  induction ops generalizing s with
  | nil => exact h
  | cons op ops ih =>
    have hstep : (applyPoolOp s op).uuids.length ≤ 2 * UUID_POOL_GEN_SIZE := by
      cases op with
      | get =>
        simp only [applyPoolOp, ZmqRequestConnection._getNextId]
        split <;> simp_all [UUID_POOL_GEN_SIZE] <;> omega
      | release id => exact releaseId_length_le id s.uuids h
    exact ih _ hstep

/-- A `sendMultipart` call preserves the scheduled-flush invariant. -/
theorem flushInv_send (parts : List Frame) (s s2 : ConnState) (hinv : flushInv s)
    (heq : ZmqConnection.sendMultipart parts s = Except.ok s2) : flushInv s2 := by
  unfold ZmqConnection.sendMultipart at heq
  cases hl : parts.getLast? with
  | none => simp [hl] at heq
  | some lf =>
    rw [hl] at heq
    cases hsch : s.scheduled with
    | none =>
      rw [hsch] at heq
      simp only [Except.ok.injEq] at heq
      subst heq
      rcases hinv with hl2 | ⟨h0, _, hs0⟩
      · exact Or.inr ⟨s.nextHandle, by simp [hl2], rfl⟩
      · rw [hsch] at hs0; exact absurd hs0 (by simp)
    | some h0 =>
      rw [hsch] at heq
      simp only [Except.ok.injEq] at heq
      subst heq
      rcases hinv with hl2 | ⟨h1, hl2, hs1⟩
      · exact Or.inl hl2
      · rw [hsch] at hs1
        injection hs1 with hh
        exact Or.inr ⟨h1, hl2, by simp [hh]⟩

/-- Erasing any handle from the reactor's outstanding set preserves the
scheduled-flush invariant. -/
theorem flushInv_live_erase (s : ConnState) (h : Nat) (hinv : flushInv s) :
    flushInv { s with live := s.live.erase h } := by
  rcases hinv with hl | ⟨h0, hl, hs⟩
  · exact Or.inl (by simp [hl])
  · by_cases he : h0 = h
    · exact Or.inl (by simp [hl, he])
    · exact Or.inr ⟨h0, by simp [hl, List.erase_cons, he], hs⟩

/-- The `doRead` prologue preserves the scheduled-flush invariant. -/
theorem flushInv_doReadPrologue (s : ConnState) (hinv : flushInv s) :
    flushInv (doReadPrologue s) := by
  unfold doReadPrologue
  cases hsch : s.scheduled with
  | none => exact hinv
  | some h =>
    rcases hinv with hl | ⟨h0, hl, hs⟩
    · exact Or.inl (by simp [hl])
    · rw [hsch] at hs
      injection hs with hh
      exact Or.inl (by simp [hl, hh])

/-- `shutdown` preserves the scheduled-flush invariant. -/
theorem flushInv_shutdown (s : ConnState) (hinv : flushInv s) :
    flushInv (ZmqConnection.shutdown s) := by
  unfold ZmqConnection.shutdown
  cases hsch : s.scheduled with
  | none =>
    rcases hinv with hl | ⟨h0, _, hs⟩
    · exact Or.inl hl
    · rw [hsch] at hs; exact absurd hs (by simp)
  | some h =>
    rcases hinv with hl | ⟨h0, hl, hs⟩
    · exact Or.inl (by simp [hl])
    · rw [hsch] at hs
      injection hs with hh
      exact Or.inl (by simp [hl, hh])

/-! ## Claim theorems -/

/-- C2: at most one scheduled-flush handle is outstanding per connection
under every interleaving of `sendMultipart`, `doRead` and `shutdown` steps;
`doRead` clears the pending-flush marker before any draining or receiving,
so a `sendMultipart` call during the pump's own execution always schedules a
fresh flush. -/
theorem flush_handle_invariant :
    flushInv ZmqConnection.init ∧
    (∀ s s2, flushInv s → EngStep s s2 → flushInv s2) ∧
    (∀ s, (doReadPrologue s).scheduled = none) ∧
    (∀ s parts s2, parts ≠ [] →
      ZmqConnection.sendMultipart parts (doReadPrologue s) = Except.ok s2 →
      s2.scheduled = some (doReadPrologue s).nextHandle ∧
      s2.live = (doReadPrologue s).live ++ [(doReadPrologue s).nextHandle]) := by
  have hprol : ∀ s : ConnState, (doReadPrologue s).scheduled = none := by
    intro s
    unfold doReadPrologue
    cases hsch : s.scheduled with
    | none => exact hsch
    | some h => rfl
  refine ⟨Or.inl rfl, ?_, hprol, ?_⟩
  · intro s s2 hinv hstep
    cases hstep with
    | send parts s s2 heq => exact flushInv_send parts s s2 hinv heq
    | timerFire h s hmem => exact flushInv_live_erase s h hinv
    | clearScheduled s => exact flushInv_doReadPrologue s hinv
    | drainPop s => exact hinv
    | shutdown s => exact flushInv_shutdown s hinv
  · intro s parts s2 hne heq
    unfold ZmqConnection.sendMultipart at heq
    rw [List.getLast?_eq_getLast parts hne, hprol s] at heq
    simp only [Except.ok.injEq] at heq
    subst heq
    exact ⟨rfl, rfl⟩

theorem flush_handle_invariant_witness :
    flushInv { ZmqConnection.init with queue := ZmqConnection.init.queue.tail } :=
  flush_handle_invariant.2.1 ZmqConnection.init _ (Or.inl rfl)
    (EngStep.drainPop ZmqConnection.init)

/-- C1: for every non-empty frame sequence passed to
`ZmqConnection.sendMultipart`, each frame but the last is appended to the tail
of the outbound queue paired with SNDMORE, the last paired with 0, in original
order after the previously queued entries, and a flush callback is scheduled
if and only if no flush was already pending. -/
theorem sendMultipart_enqueue_and_schedule (parts : List Frame) (s : ConnState)
    (hne : parts ≠ []) :
    ∃ s2, ZmqConnection.sendMultipart parts s = Except.ok s2 ∧
      s2.queue = s.queue ++ parts.dropLast.map (fun m => (SNDMORE, m)) ++
        [(0, parts.getLast hne)] ∧
      (s.scheduled = none →
        s2.scheduled = some s.nextHandle ∧ s2.live = s.live ++ [s.nextHandle]) ∧
      (s.scheduled ≠ none → s2.scheduled = s.scheduled ∧ s2.live = s.live) := by
  unfold ZmqConnection.sendMultipart
  rw [List.getLast?_eq_getLast parts hne]
  cases hs : s.scheduled with
  | none =>
    exact ⟨_, rfl, rfl, fun _ => ⟨rfl, rfl⟩, fun hc => absurd rfl hc⟩
  | some h0 =>
    exact ⟨_, rfl, rfl, fun hc => absurd hc (by simp), fun _ => ⟨rfl, rfl⟩⟩

theorem sendMultipart_enqueue_and_schedule_witness :
    ∃ s2, ZmqConnection.sendMultipart [[1], [2]] ZmqConnection.init = Except.ok s2 ∧
      s2.queue = ZmqConnection.init.queue ++
        ([[1], [2]] : List Frame).dropLast.map (fun m => (SNDMORE, m)) ++
        [(0, ([[1], [2]] : List Frame).getLast (by decide))] ∧
      (ZmqConnection.init.scheduled = none →
        s2.scheduled = some ZmqConnection.init.nextHandle ∧
        s2.live = ZmqConnection.init.live ++ [ZmqConnection.init.nextHandle]) ∧
      (ZmqConnection.init.scheduled ≠ none →
        s2.scheduled = ZmqConnection.init.scheduled ∧ s2.live = ZmqConnection.init.live) :=
  sendMultipart_enqueue_and_schedule [[1], [2]] ZmqConnection.init (by decide)

/-- C4: during the output phase of `doRead`, EAGAIN on sending the queue head
stops draining with the queue unchanged, any other transport error removes
the head and propagates, and each successful send removes exactly the head,
so frames leave the queue in enqueue order. -/
theorem doRead_output_phase (outs : List SendOutcome) (e : Nat) (x : Nat × Frame)
    (rest : List (Nat × Frame)) (q : List (Nat × Frame)) :
    drainOutput (SendOutcome.eagain :: outs) (x :: rest) = ⟨[], x :: rest, none⟩ ∧
    drainOutput (SendOutcome.err e :: outs) (x :: rest) = ⟨[], rest, some e⟩ ∧
    drainOutput (SendOutcome.ok :: outs) (x :: rest) =
      ⟨x :: (drainOutput outs rest).sent, (drainOutput outs rest).queue,
       (drainOutput outs rest).raised⟩ ∧
    ((drainOutput outs q).raised = none →
      (drainOutput outs q).sent ++ (drainOutput outs q).queue = q) ∧
    (∀ e2, (drainOutput outs q).raised = some e2 →
      ∃ y, (drainOutput outs q).sent ++ y :: (drainOutput outs q).queue = q) :=
  ⟨rfl, rfl, rfl, (drainOutput_partition outs q).1, (drainOutput_partition outs q).2⟩

theorem doRead_output_phase_witness :
    drainOutput [SendOutcome.eagain] [(0, [1])] = ⟨[], [(0, [1])], none⟩ ∧
    drainOutput [SendOutcome.err 5] [(0, [1])] = ⟨[], [], some 5⟩ ∧
    drainOutput [SendOutcome.ok] [(0, [1])] =
      ⟨(0, [1]) :: (drainOutput [] []).sent, (drainOutput [] []).queue,
       (drainOutput [] []).raised⟩ ∧
    (drainOutput [SendOutcome.ok] [(0, [1]), (2, [2])]).sent ++
      (drainOutput [SendOutcome.ok] [(0, [1]), (2, [2])]).queue = [(0, [1]), (2, [2])] ∧
    (∃ y, (drainOutput [SendOutcome.err 7] [(0, [1]), (2, [2])]).sent ++
      y :: (drainOutput [SendOutcome.err 7] [(0, [1]), (2, [2])]).queue =
        [(0, [1]), (2, [2])]) :=
  ⟨(doRead_output_phase [] 5 (0, [1]) [] []).1,
   (doRead_output_phase [] 5 (0, [1]) [] []).2.1,
   (doRead_output_phase [] 5 (0, [1]) [] []).2.2.1,
   (doRead_output_phase [SendOutcome.ok] 5 (0, [1]) [] [(0, [1]), (2, [2])]).2.2.2.1 rfl,
   (doRead_output_phase [SendOutcome.err 7] 7 (0, [1]) [] [(0, [1]), (2, [2])]).2.2.2.2
     7 rfl⟩

/-- C8: pub/sub framing round-trip — for every tag free of the separator byte
and every payload, the subscriber's one-frame receive path recovers exactly
`(tag, payload)` from the publisher's single-frame encoding, and a two-frame
receive dispatches `(tag, payload)` unchanged. -/
theorem pubsub_framing_roundtrip (tag payload : Frame) (h : ¬ 0 ∈ tag) :
    ZmqSubConnection.messageReceived [ZmqPubConnection.sendMsgFrame payload tag] =
      some (tag, payload) ∧
    ZmqSubConnection.messageReceived [tag, payload] = some (tag, payload) :=
  ⟨splitOnceAtSep_encode tag payload h, rfl⟩

theorem pubsub_framing_roundtrip_witness :
    ZmqSubConnection.messageReceived [ZmqPubConnection.sendMsgFrame [3, 0, 4] [1, 2]] =
      some ([1, 2], [3, 0, 4]) ∧
    ZmqSubConnection.messageReceived [[1, 2], [3, 0, 4]] = some ([1, 2], [3, 0, 4]) :=
  pubsub_framing_roundtrip [1, 2] [3, 0, 4] (by decide)

/-- C9: if shutdown has occurred mid-pump — the factory reference is cleared —
the read loop of `doRead` returns immediately at the top of its next
iteration, before attempting any further receive; in particular a handler
that shuts the connection down stops the loop with no receive after it. -/
theorem doRead_input_shutdown_guard
    (handler : List Frame → ConnState → ConnState) (ins : List RecvOutcome)
    (m : List Frame) (rest : List RecvOutcome) (s : ConnState) :
    (s.factoryAlive = false → inputLoop handler ins s = (s, 0, none)) ∧
    (s.factoryAlive = true → (handler m s).factoryAlive = false →
      inputLoop handler (RecvOutcome.msg m :: rest) s = (handler m s, 1, none)) := by
  constructor
  · intro h
    unfold inputLoop
    simp [h]
  · intro h1 h2
    unfold inputLoop
    simp only [h1, Bool.true_eq_false, if_false]
    unfold inputLoop
    simp [h2]

theorem doRead_input_shutdown_guard_witness :
    inputLoop (fun _ s => ZmqConnection.shutdown s) [RecvOutcome.eagain]
        (ZmqConnection.shutdown ZmqConnection.init) =
      (ZmqConnection.shutdown ZmqConnection.init, 0, none) ∧
    inputLoop (fun _ s => ZmqConnection.shutdown s) [RecvOutcome.msg []]
        ZmqConnection.init =
      (ZmqConnection.shutdown ZmqConnection.init, 1, none) :=
  ⟨(doRead_input_shutdown_guard (fun _ s => ZmqConnection.shutdown s)
      [RecvOutcome.eagain] [] [] (ZmqConnection.shutdown ZmqConnection.init)).1 rfl,
   (doRead_input_shutdown_guard (fun _ s => ZmqConnection.shutdown s)
      [] [] [] ZmqConnection.init).2 rfl rfl⟩

/-- C3: a reply `[id, emptyFrame, ...P]` received while the request under
`id` is pending removes that request's Deferred from the pending map,
releases `id` to the pool and resolves exactly that Deferred with exactly
`P`; if `id` has no pending entry, the receive raises a `KeyError` rather
than silently continuing. -/
theorem request_reply_correlation (s : ReqState) (msgId eFrame : String) (d : Nat)
    (P : List String) :
    (dictGet msgId s.requests = some d →
      ∃ rest, dictPop msgId s.requests = some (d, rest) ∧
        ZmqRequestConnection.messageReceived (msgId :: eFrame :: P) s =
          Except.ok ({ s with requests := rest
                              uuids := ZmqRequestConnection._releaseId msgId s.uuids },
                     d, P)) ∧
    (dictGet msgId s.requests = none →
      ZmqRequestConnection.messageReceived (msgId :: eFrame :: P) s =
        Except.error PyErr.keyError) := by
  constructor
  · intro hget
    obtain ⟨rest, hpop⟩ := dictGet_some_dictPop msgId s.requests d hget
    exact ⟨rest, hpop, by simp [ZmqRequestConnection.messageReceived, hpop]⟩
  · intro hget
    simp [ZmqRequestConnection.messageReceived,
          dictGet_none_dictPop msgId s.requests hget]

theorem request_reply_correlation_witness :
    (∃ rest, dictPop "a" (⟨[("a", 7), ("b", 8)], [], 0, 2⟩ : ReqState).requests =
        some (7, rest) ∧
      ZmqRequestConnection.messageReceived ["a", "", "x"]
          ⟨[("a", 7), ("b", 8)], [], 0, 2⟩ =
        Except.ok ({ (⟨[("a", 7), ("b", 8)], [], 0, 2⟩ : ReqState) with
                     requests := rest
                     uuids := ZmqRequestConnection._releaseId "a"
                       (⟨[("a", 7), ("b", 8)], [], 0, 2⟩ : ReqState).uuids },
                   7, ["x"])) ∧
    ZmqRequestConnection.messageReceived ["c", "", "x"] ZmqRequestConnection.init =
      Except.error PyErr.keyError :=
  ⟨(request_reply_correlation ⟨[("a", 7), ("b", 8)], [], 0, 2⟩ "a" "" 7 ["x"]).1
      (by decide),
   (request_reply_correlation ZmqRequestConnection.init "c" "" 0 ["x"]).2 (by decide)⟩

/-- C5: the reply adapter's `sendMultipart(id, parts)` pops the routing
envelope saved under `id` and enqueues `envelope + [id, emptyFrame] + parts`;
the saved entry is removed exactly once, so a second reply for the same id,
or a reply for an id never received, raises a `KeyError` with no frames
enqueued. -/
theorem reply_routing_envelope (s : RepState) (msgId : String)
    (parts parts2 info : List String) (rest : List (String × List String)) :
    (dictPop msgId s.routingInfo = some (info, rest) →
      ZmqReplyConnection.sendMultipart msgId parts s =
        Except.ok (⟨rest⟩, info ++ msgId :: "" :: parts)) ∧
    (dictGet msgId s.routingInfo = none →
      ZmqReplyConnection.sendMultipart msgId parts s = Except.error PyErr.keyError) ∧
    ((s.routingInfo.map Prod.fst).Nodup →
      dictPop msgId s.routingInfo = some (info, rest) →
      ZmqReplyConnection.sendMultipart msgId parts2 ⟨rest⟩ =
        Except.error PyErr.keyError) := by
  refine ⟨fun hpop => ?_, fun hget => ?_, fun hnd hpop => ?_⟩
  · simp [ZmqReplyConnection.sendMultipart, hpop]
  · simp [ZmqReplyConnection.sendMultipart,
          dictGet_none_dictPop msgId s.routingInfo hget]
  · have hnone := dictPop_nodup_get_none msgId s.routingInfo info rest hnd hpop
    simp [ZmqReplyConnection.sendMultipart, dictGet_none_dictPop msgId rest hnone]

theorem reply_routing_envelope_witness :
    (ZmqReplyConnection.sendMultipart "a" ["p"] ⟨[("a", ["r1", "r2"])]⟩ =
      Except.ok (⟨[]⟩, ["r1", "r2"] ++ "a" :: "" :: ["p"])) ∧
    (ZmqReplyConnection.sendMultipart "z" ["p"] ⟨[("a", ["r1", "r2"])]⟩ =
      Except.error PyErr.keyError) ∧
    (ZmqReplyConnection.sendMultipart "a" ["q"] ⟨[]⟩ = Except.error PyErr.keyError) :=
  ⟨(reply_routing_envelope ⟨[("a", ["r1", "r2"])]⟩ "a" ["p"] ["q"] ["r1", "r2"] []).1
      (by decide),
   (reply_routing_envelope ⟨[("a", ["r1", "r2"])]⟩ "z" ["p"] ["q"] [] []).2.1 (by decide),
   (reply_routing_envelope ⟨[("a", ["r1", "r2"])]⟩ "a" ["p"] ["q"] ["r1", "r2"] []).2.2
      (by decide) (by decide)⟩

/-- C6: after every `_releaseId` call, the correlation-id pool holds at most
`2 * UUID_POOL_GEN_SIZE` (ten) ids, whatever sequence of `_getNextId` and
`_releaseId` calls preceded it on a fresh adapter. -/
theorem releaseId_pool_bound (ops : List PoolOp) (id : String) :
    (ZmqRequestConnection._releaseId id
        (runPoolOps ZmqRequestConnection.init ops).uuids).length ≤
      2 * UUID_POOL_GEN_SIZE :=
  releaseId_length_le id _
    (runPoolOps_length_le ops ZmqRequestConnection.init (by simp [ZmqRequestConnection.init]))

/-- C7 (counterexample): on a fresh request adapter, ten sends followed by
receipt of the ten matching replies leave the pending-request map empty but
the id pool at size ten — not `UUID_POOL_GEN_SIZE` (five) as claimed. -/
theorem ten_request_scenario_counterexample :
    (tenReplies.map fun s => (s.requests, s.uuids.length)) = Except.ok ([], 10) ∧
    ¬ (tenReplies.map fun s => s.uuids.length) = Except.ok UUID_POOL_GEN_SIZE := by
  constructor
  · rfl
  · intro h
    have h2 : (tenReplies.map fun s => s.uuids.length) = Except.ok 10 := rfl
    rw [h2] at h
    injection h with h3
    exact absurd h3 (by decide)

/-- C7 (amended): on a fresh request adapter, ten sends followed by receipt
of the ten matching replies leave the pending-request map empty and the id
pool at exactly two batches (`2 * UUID_POOL_GEN_SIZE` = ten) ids. -/
theorem ten_request_scenario :
    (tenReplies.map fun s => (s.requests, s.uuids.length)) =
      Except.ok ([], 2 * UUID_POOL_GEN_SIZE) := by
  rfl

/-- C10: `ZmqPubConnection.sendMsg` (and `ZmqBase.sendMultipart` in general)
fails with an attribute-lookup error and appends nothing to the outbound
queue, because `self.send(...)` resolves no `send` method anywhere in the
connection class hierarchy. -/
theorem send_attribute_missing :
    resolveAttr zmqPubMRO "send" = false ∧
    resolveAttr zmqBaseMRO "send" = false ∧
    (∀ message tag s, ZmqPubConnection.sendMsg message tag s =
      Except.error (PyErr.attributeError, s)) ∧
    (∀ parts s, ZmqBase.sendMultipart parts s =
      Except.error (PyErr.attributeError, s)) := by
  refine ⟨by decide, by decide, fun message tag s => ?_, fun parts s => ?_⟩
  · simp [ZmqPubConnection.sendMsg, show resolveAttr zmqPubMRO "send" = false by decide]
  · simp [ZmqBase.sendMultipart, show resolveAttr zmqBaseMRO "send" = false by decide]

end Txzmq
